import Mathlib

/-
  Verification of the WebRTC object-detection server (src/server/main.py)
  against its natural-language specification.

  Shallow embedding conventions:
  * Python float arithmetic is modelled with exact rationals (the real-number
    semantics of the arithmetic used by the claims).
  * A value in a raw inference-output tensor is either numeric or malformed;
    numeric conversion of a malformed value raises, which the embedding
    tracks with the Except monad.  A raised exception that the code catches
    is turned back into the value the handler produces, exactly where the
    try/except blocks of the source sit.
  * Stateful loops (process_video_track, the signaling registry) are
    explicit step functions folded over a list of events.
-/

namespace YoloServer

/-- Scalar stored in a raw output tensor: a numeric value, or a malformed
(non-numeric) entry on which numeric conversion raises. -/
inductive Val where
  | num (q : ℚ)
  | bad
deriving DecidableEq

/-- Python float(v): returns the numeric value, raises on a malformed one. -/
def pyFloat : Val → Except Unit ℚ
  | .num q => .ok q
  | .bad => .error ()

/-- Truncation toward zero, the behaviour of Python int() on a float. -/
def truncQ (q : ℚ) : Int := q.num.tdiv (q.den : Int)

/-- Python int(v): truncates a numeric value toward zero, raises on a
malformed one. -/
def pyInt (v : Val) : Except Unit Int :=
  match pyFloat v with
  | .error e => .error e
  | .ok q => .ok (truncQ q)

/-- The COCO class vocabulary, ObjectDetector.class_names in the source. -/
def class_names : List String :=
  ["person", "bicycle", "car", "motorcycle", "airplane", "bus", "train",
   "truck", "boat", "traffic light", "fire hydrant", "stop sign",
   "parking meter", "bench", "bird", "cat", "dog", "horse", "sheep", "cow",
   "elephant", "bear", "zebra", "giraffe", "backpack", "umbrella",
   "handbag", "tie", "suitcase", "frisbee", "skis", "snowboard",
   "sports ball", "kite", "baseball bat", "baseball glove", "skateboard",
   "surfboard", "tennis racket", "bottle", "wine glass", "cup", "fork",
   "knife", "spoon", "bowl", "banana", "apple", "sandwich", "orange",
   "broccoli", "carrot", "hot dog", "pizza", "donut", "cake", "chair",
   "couch", "potted plant", "bed", "dining table", "toilet", "tv",
   "laptop", "mouse", "remote", "keyboard", "cell phone", "microwave",
   "oven", "toaster", "sink", "refrigerator", "book", "clock", "vase",
   "scissors", "teddy bear", "hair drier", "toothbrush"]

/-- Python list indexing l[i]: nonnegative indices below the length index
from the front, negative indices not below -len(l) index from the back, and
anything else raises IndexError. -/
def pyIndex (l : List String) (i : Int) : Except Unit String :=
  if 0 ≤ i ∧ i < (l.length : Int) then .ok (l.getD i.toNat (""))
  else if -(l.length : Int) ≤ i ∧ i < 0 then
    .ok (l.getD ((l.length : Int) + i).toNat (""))
  else .error ()

/-- The label expression used by every branch of postprocess:
class_names[i] if i < len(class_names) else the literal unknown label.
For i below -len(class_names) the indexing itself raises IndexError. -/
def labelFor (i : Int) : Except Unit String :=
  if i < (class_names.length : Int) then pyIndex class_names i
  else .ok ("unknown")

/-- One normalized detection, the dict appended by postprocess. -/
structure Detection where
  label : String
  score : ℚ
  xmin : ℚ
  ymin : ℚ
  xmax : ℚ
  ymax : ℚ
deriving DecidableEq

/-- Index of the first maximum of the list, continuing an argmax scan with
current best value and best index. -/
def argmaxAux : List ℚ → ℚ → Nat → Nat → Nat
  | [], _, _, best => best
  | q :: rest, bestVal, i, best =>
    if bestVal < q then argmaxAux rest q (i + 1) i
    else argmaxAux rest bestVal (i + 1) best

/-- Numeric view of a list of tensor scalars: raises if any entry is
malformed. -/
def mapFloats : List Val → Except Unit (List ℚ)
  | [] => .ok []
  | v :: vs =>
    match pyFloat v with
    | .error e => .error e
    | .ok q =>
      match mapFloats vs with
      | .error e => .error e
      | .ok qs => .ok (q :: qs)

/-- numpy argmax over tensor scalars: raises when the list is empty or any
entry is malformed (comparison on a non-numeric object raises); otherwise
returns the index of the first maximum. -/
def npArgmax (l : List Val) : Except Unit Nat :=
  match mapFloats l with
  | .error e => .error e
  | .ok [] => .error ()
  | .ok (q :: qs) => .ok (argmaxAux qs q 1 0)

/-- Dense-grid (YOLO-style) branch, body of the for-loop over predictions:
unpack the first four fields, convert the objectness at index 4, drop rows
whose objectness or best class score is not above the threshold, and build
the detection with combined score objectness * classScore and corner
coordinates divided by the model input size and one-sidedly clamped.
Returns ok none for a row filtered out, error where the Python code would
raise (propagating to the outer handler of postprocess). -/
def densePred (input_size thr : ℚ) (pred : List Val) : Except Unit (Option Detection) :=
  if pred.length < 4 then .error () else
  match pyFloat (pred.getD 4 .bad) with
  | .error e => .error e
  | .ok confidence =>
    if confidence ≤ thr then .ok none else
    match (if 0 < (pred.drop 5).length then npArgmax (pred.drop 5) else .ok 0) with
    | .error e => .error e
    | .ok class_id =>
      match (if 0 < (pred.drop 5).length then pyFloat ((pred.drop 5).getD class_id .bad)
             else .ok 1) with
      | .error e => .error e
      | .ok class_score =>
        if class_score ≤ thr then .ok none else
        match pyFloat (pred.getD 0 .bad), pyFloat (pred.getD 1 .bad),
              pyFloat (pred.getD 2 .bad), pyFloat (pred.getD 3 .bad) with
        | .ok x_center, .ok y_center, .ok width, .ok height =>
          match labelFor (class_id : Int) with
          | .error e => .error e
          | .ok lab =>
            .ok (some
              { label := lab
                score := confidence * class_score
                xmin := max 0 ((x_center - width / 2) / input_size)
                ymin := max 0 ((y_center - height / 2) / input_size)
                xmax := min 1 ((x_center + width / 2) / input_size)
                ymax := min 1 ((y_center + height / 2) / input_size) })
        | _, _, _, _ => .error ()

/-- Dense-grid branch loop: an exception raised while handling one
prediction escapes to the outer handler of postprocess, which returns the
detections accumulated so far. -/
def scanDense (input_size thr : ℚ) : List (List Val) → List Detection
  | [] => []
  | p :: ps =>
    match densePred input_size thr p with
    | .error _ => []
    | .ok none => scanDense input_size thr ps
    | .ok (some d) => d :: scanDense input_size thr ps

/-- Element access row[i] of a tensor row: raises IndexError out of range. -/
def rowGet (r : List Val) (i : Nat) : Except Unit Val :=
  match r.get? i with
  | some v => .ok v
  | none => .error ()

/-- Region-list (SSD-style) branch, the inner try block of the row loop:
parse class id and the five float fields; any failure is caught by the
inner except and the row is skipped. -/
def ssdParse (row : List Val) : Except Unit (Int × ℚ × ℚ × ℚ × ℚ × ℚ) :=
  match rowGet row 1 with
  | .error e => .error e
  | .ok v1 =>
    match pyInt v1 with
    | .error e => .error e
    | .ok class_id =>
      match rowGet row 2 with
      | .error e => .error e
      | .ok v2 =>
        match pyFloat v2 with
        | .error e => .error e
        | .ok score =>
          match rowGet row 3, rowGet row 4, rowGet row 5, rowGet row 6 with
          | .ok v3, .ok v4, .ok v5, .ok v6 =>
            match pyFloat v3, pyFloat v4, pyFloat v5, pyFloat v6 with
            | .ok xmin, .ok ymin, .ok xmax, .ok ymax =>
              .ok (class_id, score, xmin, ymin, xmax, ymax)
            | _, _, _, _ => .error ()
          | _, _, _, _ => .error ()

/-- Region-list branch loop: a row whose parse raises is skipped by the
inner except and the loop continues; after the parse, rows not above the
threshold are skipped; the label lookup sits outside the inner try, so an
IndexError there (class id below -80) escapes to the outer handler, ending
the scan with the accumulated detections.  Coordinates are passed through
without clamping. -/
def scanSSD (thr : ℚ) : List (List Val) → List Detection
  | [] => []
  | row :: rows =>
    match ssdParse row with
    | .error _ => scanSSD thr rows
    | .ok (class_id, score, x0, y0, x1, y1) =>
      if score ≤ thr then scanSSD thr rows
      else
        match labelFor class_id with
        | .error _ => []
        | .ok lab =>
          { label := lab, score := score,
            xmin := x0, ymin := y0, xmax := x1, ymax := y1 } :: scanSSD thr rows

/-- Flat-fallback branch, body for one 6-element record: all six fields are
converted before the threshold test, the score is the raw confidence, and
corner coordinates are one-sidedly clamped without dividing by the input
size.  There is no inner try here: any raise escapes to the outer handler. -/
def flatChunk (thr : ℚ) (c : List Val) : Except Unit (Option Detection) :=
  match rowGet c 0, rowGet c 1, rowGet c 2, rowGet c 3, rowGet c 4, rowGet c 5 with
  | .ok v0, .ok v1, .ok v2, .ok v3, .ok v4, .ok v5 =>
    match pyFloat v0, pyFloat v1, pyFloat v2, pyFloat v3, pyFloat v4 with
    | .ok x, .ok y, .ok w, .ok h, .ok conf =>
      match pyInt v5 with
      | .error e => .error e
      | .ok cls =>
        if conf ≤ thr then .ok none else
        match labelFor cls with
        | .error e => .error e
        | .ok lab =>
          .ok (some
            { label := lab
              score := conf
              xmin := max 0 (x - w / 2)
              ymin := max 0 (y - h / 2)
              xmax := min 1 (x + w / 2)
              ymax := min 1 (y + h / 2) })
    | _, _, _, _, _ => .error ()
  | _, _, _, _, _, _ => .error ()

/-- Flat-fallback branch loop over the 6-element records: a raise while
handling one record ends the scan with the accumulated detections. -/
def scanFlatChunks (thr : ℚ) : List (List Val) → List Detection
  | [] => []
  | c :: cs =>
    match flatChunk thr c with
    | .error _ => []
    | .ok none => scanFlatChunks thr cs
    | .ok (some d) => d :: scanFlatChunks thr cs

/-- Chunking helper with structural fuel so that it evaluates by kernel
reduction; fuel is the length of the list being chunked. -/
def chunksAux (n : Nat) : Nat → List Val → List (List Val)
  | 0, _ => []
  | _, [] => []
  | fuel + 1, l => l.take n :: chunksAux n fuel (l.drop n)

/-- Split a flat list into consecutive chunks of size n. -/
def chunkList (n : Nat) (l : List Val) : List (List Val) :=
  if n = 0 then [] else chunksAux n l.length l

/-- Raw output tensor: its shape and its row-major flattened data. -/
structure Tensor where
  shape : List Nat
  data : List Val
deriving DecidableEq

/-- Rows of preds = out0[0] in the dense-grid branch: the first
shape[1] * shape[2] scalars of the first batch, in rows of shape[2]. -/
def denseRows (t : Tensor) : List (List Val) :=
  chunkList (t.shape.getD 2 0) (t.data.take (t.shape.getD 1 0 * t.shape.getD 2 0))

/-- Rows of pred_box = out0[0][0] in the region-list branch: the first
shape[2] * shape[3] scalars, in rows of shape[3] (the branch condition
forces shape[2] = 1, so there is exactly one row). -/
def ssdRows (t : Tensor) : List (List Val) :=
  chunkList (t.shape.getD 3 0) (t.data.take (t.shape.getD 2 0 * t.shape.getD 3 0))

/-- ObjectDetector.postprocess: dispatch on the shape of outputs[0].
An exception anywhere inside the try block is caught by the outer handler
and the accumulated detections are returned; in particular an empty outputs
list (outputs[0] raises) or an empty leading axis (out0[0] raises) yields
the empty list, and a non-matching shape falls through to the empty
result. -/
def postprocess (input_size : ℚ) (outputs : List Tensor) (conf_threshold : ℚ) :
    List Detection :=
  match outputs with
  | [] => []
  | out0 :: _ =>
    if out0.shape.length = 3 ∧ 6 ≤ out0.shape.getD 2 0 then
      if out0.shape.getD 0 0 = 0 then []
      else scanDense input_size conf_threshold (denseRows out0)
    else if out0.shape.length = 4 ∧ out0.shape.getD 2 0 = 1 ∧
            7 ≤ out0.shape.getD 3 0 then
      if out0.shape.getD 0 0 = 0 ∨ out0.shape.getD 1 0 = 0 then []
      else scanSSD conf_threshold (ssdRows out0)
    else if out0.data.length % 6 = 0 then
      scanFlatChunks conf_threshold (chunkList 6 out0.data)
    else []

/-- Wire payload of one detection_result message, the dict built by
VideoProcessor.process_frame. -/
structure DetectionResult where
  frame_id : String
  capture_ts : Int
  recv_ts : Int
  inference_ts : Int
  detections : List Detection
deriving DecidableEq

/-- One iteration of the process_video_track loop, as seen from outside:
whether track.recv, frame.to_ndarray and the selected-frame processing
(process_frame and the websocket send) succeed, the timestamp the remote
client attached to the frame (which the code never reads), the server
clock values that time.time would report at the three sampling points, and
the detections the detector would produce. -/
structure Arrival where
  recv_ok : Bool
  ndarray_ok : Bool
  client_capture_ts : Int
  server_now : Int
  server_recv_now : Int
  server_infer_now : Int
  infer_ok : Bool
  dets : List Detection
deriving DecidableEq

/-- Capacity of VideoProcessor.frame_queue (asyncio.Queue maxsize). -/
def frame_queue_maxsize : Nat := 5

/-- State of one process_video_track loop, together with the state of the
owning VideoProcessor.frame_queue.  The queue fields record the queue
contents and the number of put/get operations ever performed on it. -/
structure TrackState where
  frame_count : Nat
  results : List DetectionResult
  frame_queue : List String
  buffer_ops : Nat
  terminated : Bool
deriving DecidableEq

/-- Loop state on entry to process_video_track. -/
def initTrackState : TrackState :=
  { frame_count := 0, results := [], frame_queue := [], buffer_ops := 0,
    terminated := false }

/-- VideoProcessor.process_frame: builds the result dict.  recv_ts and
inference_ts are server clock samples around the detector call; capture_ts
is whatever the caller passed in, copied through unmodified. -/
def process_frame (a : Arrival) (frame_id : String) (capture_ts : Int) :
    DetectionResult :=
  { frame_id := frame_id, capture_ts := capture_ts,
    recv_ts := a.server_recv_now, inference_ts := a.server_infer_now,
    detections := a.dets }

/-- One iteration of the while-True loop of
WebRTCServer.process_video_track.  After the loop has broken, further
arrivals have no effect.  track.recv raising breaks before frame_count is
incremented; to_ndarray raising breaks after.  Every 2nd frame is
processed inline: capture_ts is stamped from the server clock at this
point, the frame is handed synchronously to process_frame and the result
sent; any exception there is caught, logged, and breaks the loop.  The
frame_queue is never read or written. -/
def track_step (s : TrackState) (a : Arrival) : TrackState :=
  if s.terminated then s
  else if ¬ a.recv_ok then { s with terminated := true }
  else if ¬ a.ndarray_ok then
    { s with frame_count := s.frame_count + 1, terminated := true }
  else if (s.frame_count + 1) % 2 = 0 then
    if ¬ a.infer_ok then
      { s with frame_count := s.frame_count + 1, terminated := true }
    else
      { s with frame_count := s.frame_count + 1,
               results := s.results ++
                 [process_frame a (toString (s.frame_count + 1)) a.server_now] }
  else { s with frame_count := s.frame_count + 1 }

/-- WebRTCServer.process_video_track over a whole sequence of arrivals. -/
def process_video_track (arrivals : List Arrival) : TrackState :=
  arrivals.foldl track_step initTrackState

/-- Frame counts 1, 2, ... assigned to n consecutive frames arriving after
the counter already reached k. -/
def frame_ids_from (k : Nat) : Nat → List Nat
  | 0 => []
  | n + 1 => (k + 1) :: frame_ids_from (k + 1) n

/-- An arrival on which no stage of the loop body raises. -/
def arrival_ok (a : Arrival) : Bool :=
  a.recv_ok && a.ndarray_ok && a.infer_ok

/-- State of the WebRTCServer signaling registry: the peer_connections
dict (connection id to the currently registered peer-connection handle),
a counter handing out a fresh handle id per RTCPeerConnection() call, and
the list of handles on which close() has been called. -/
structure ServerState where
  peer_connections : List (Nat × Nat)
  next_pc : Nat
  closed_pcs : List Nat
deriving DecidableEq

/-- Registry state of a freshly constructed WebRTCServer. -/
def initServerState : ServerState :=
  { peer_connections := [], next_pc := 0, closed_pcs := [] }

/-- Dict lookup by connection id. -/
def dictGet : List (Nat × Nat) → Nat → Option Nat
  | [], _ => none
  | (k, v) :: rest, key => if k = key then some v else dictGet rest key

/-- Dict assignment: the new binding replaces any previous one. -/
def dictSet (d : List (Nat × Nat)) (k v : Nat) : List (Nat × Nat) :=
  (k, v) :: d.filter (fun kv => kv.1 ≠ k)

/-- Dict deletion. -/
def dictDel (d : List (Nat × Nat)) (k : Nat) : List (Nat × Nat) :=
  d.filter (fun kv => kv.1 ≠ k)

/-- WebRTCServer.handle_offer, restricted to its registry effect: a fresh
RTCPeerConnection is created and stored under the connection id,
overwriting (without closing) whatever handle was registered there.
Returns the fresh handle id with the new state. -/
def handle_offer (s : ServerState) (conn : Nat) : Nat × ServerState :=
  let pc := s.next_pc
  (pc, { peer_connections := dictSet s.peer_connections conn pc,
         next_pc := s.next_pc + 1,
         closed_pcs := s.closed_pcs })

/-- The finally block of WebRTCServer.handle_websocket: on disconnect, the
handle currently registered for the connection (if any) is closed and the
registry entry deleted. -/
def websocket_cleanup (s : ServerState) (conn : Nat) : ServerState :=
  match dictGet s.peer_connections conn with
  | some pc =>
      { peer_connections := dictDel s.peer_connections conn,
        next_pc := s.next_pc,
        closed_pcs := s.closed_pcs ++ [pc] }
  | none => s

/-- A peer-connection handle that has been created and not closed. -/
def pc_active (s : ServerState) (pc : Nat) : Prop :=
  pc < s.next_pc ∧ pc ∉ s.closed_pcs

instance (s : ServerState) (pc : Nat) : Decidable (pc_active s pc) := by
  unfold pc_active; infer_instance

/-- Handle ids handed out so far are the only ones that can be closed. -/
def wf_server (s : ServerState) : Prop :=
  ∀ pc ∈ s.closed_pcs, pc < s.next_pc

instance (s : ServerState) : Decidable (wf_server s) := by
  unfold wf_server; infer_instance

/-- Arrival on which no stage of the loop body raises (empty detection
list, all clocks at zero). -/
def arr_ok : Arrival :=
  { recv_ok := true, ndarray_ok := true, client_capture_ts := 0, server_now := 0,
    server_recv_now := 0, server_infer_now := 0, infer_ok := true, dets := [] }

/-- Arrival whose selected-frame processing raises. -/
def arr_infer_fail : Arrival := { arr_ok with infer_ok := false }

/-- Loop state after one skipped frame: the next arrival is selected. -/
def c6_state : TrackState :=
  { frame_count := 1, results := [], frame_queue := [], buffer_ops := 0,
    terminated := false }

/-- Arrival whose client-attached capture time (1111) differs from every
server clock sample (2222, 2223, 2224). -/
def c6_arrival : Arrival :=
  { recv_ok := true, ndarray_ok := true, client_capture_ts := 1111,
    server_now := 2222, server_recv_now := 2223, server_infer_now := 2224,
    infer_ok := true, dets := [] }

/-- Dense-grid row of end-to-end scenario 1 of the specification:
center (0.5, 0.5), size (0.2, 0.2), objectness 0.9, one class score 0.9. -/
def c5_row : List Val :=
  [Val.num (1/2), Val.num (1/2), Val.num (1/5), Val.num (1/5),
   Val.num (9/10), Val.num (9/10)]

/-- Tensor of shape (1,3,6) whose three rows are all the scenario row. -/
def c5_tensor : Tensor := { shape := [1, 3, 6], data := c5_row ++ c5_row ++ c5_row }

/-- Dense-grid tensor with objectness 0.6 and class score 0.6: both factors
exceed the threshold 0.5 but their product 0.36 does not. -/
def c3_tensor : Tensor :=
  { shape := [1, 1, 6],
    data := [Val.num (1/2), Val.num (1/2), Val.num (1/5), Val.num (1/5),
             Val.num (3/5), Val.num (3/5)] }

/-- Dense-grid row with width and height 0: the clamped corner coordinates
coincide, so the returned box has xmin = xmax. -/
def c4_dense_row : List Val :=
  [Val.num 160, Val.num 160, Val.num 0, Val.num 0, Val.num (9/10), Val.num (9/10)]

/-- Tensor wrapping the zero-size dense row. -/
def c4_dense_tensor : Tensor := { shape := [1, 1, 6], data := c4_dense_row }

/-- Region-list tensor whose single row carries corner coordinates
(2, 2, 3, 3), far outside the unit square. -/
def c4_ssd_tensor : Tensor :=
  { shape := [1, 1, 1, 7],
    data := [Val.num 0, Val.num 0, Val.num (9/10), Val.num 2, Val.num 2,
             Val.num 3, Val.num 3] }

/-- Region-list tensor whose single row carries class id -1. -/
def c8_tensor : Tensor :=
  { shape := [1, 1, 1, 7],
    data := [Val.num 0, Val.num (-1), Val.num (9/10), Val.num 0, Val.num 0,
             Val.num (1/2), Val.num (1/2)] }

/-- Dense-grid row with a malformed objectness field. -/
def dense_bad_pred : List Val :=
  [Val.num 0, Val.num 0, Val.num 0, Val.num 0, Val.bad, Val.num 1]

/-- Well-formed flat-fallback record above the 0.5 threshold. -/
def flat_good_chunk : List Val :=
  [Val.num (1/2), Val.num (1/2), Val.num (1/5), Val.num (1/5),
   Val.num (9/10), Val.num 0]

/-- Flat-fallback record with a malformed first field. -/
def flat_bad_chunk : List Val :=
  [Val.bad, Val.num 0, Val.num 0, Val.num 0, Val.num 1, Val.num 0]

/-- Well-formed region-list row above the 0.5 threshold. -/
def ssd_good_row : List Val :=
  [Val.num 0, Val.num 0, Val.num (9/10), Val.num 0, Val.num 0,
   Val.num 1, Val.num 1]

/-- Region-list row with a malformed class-id field. -/
def ssd_bad_row : List Val :=
  [Val.num 0, Val.bad, Val.num 0, Val.num 0, Val.num 0, Val.num 0, Val.num 0]

theorem track_step_queue (s : TrackState) (a : Arrival) :
    (track_step s a).frame_queue = s.frame_queue ∧
    (track_step s a).buffer_ops = s.buffer_ops := by
  unfold track_step
  split_ifs <;> simp

theorem foldl_track_queue (as : List Arrival) :
    ∀ s : TrackState,
      ((as.foldl track_step s).frame_queue = s.frame_queue ∧
       (as.foldl track_step s).buffer_ops = s.buffer_ops) := by
  induction as with
  | nil => intro s; simp
  | cons a as ih =>
    intro s
    rw [List.foldl_cons]
    obtain ⟨h1, h2⟩ := ih (track_step s a)
    obtain ⟨h3, h4⟩ := track_step_queue s a
    exact ⟨h1.trans h3, h2.trans h4⟩

theorem track_step_of_terminated (s : TrackState) (a : Arrival)
    (h : s.terminated = true) : track_step s a = s := by
  unfold track_step
  simp [h]

theorem foldl_track_terminated (as : List Arrival) :
    ∀ s : TrackState, s.terminated = true → as.foldl track_step s = s := by
  induction as with
  | nil => intro s _; rfl
  | cons a as ih =>
    intro s h
    rw [List.foldl_cons, track_step_of_terminated s a h]
    exact ih s h

theorem track_step_fail_no_result (s : TrackState) (a : Arrival)
    (h0 : s.terminated = false) (h : (track_step s a).terminated = true) :
    (track_step s a).results = s.results := by
  unfold track_step at h ⊢
  split_ifs at h ⊢ <;> simp_all

/-- C2, counterexample: on a two-frame arrival sequence the loop processes
a selected frame while performing zero operations on the frame_queue,
which stays empty, so the bounded buffer does not interpose between frame
arrival and processing and no arrival ever evicts a buffered frame. -/
theorem c2_counterexample :
    (process_video_track [arr_ok, arr_ok]).results.length = 1 ∧
    (process_video_track [arr_ok, arr_ok]).buffer_ops = 0 ∧
    (process_video_track [arr_ok, arr_ok]).frame_queue = [] := by
  decide

/-- C2, amended: the VideoProcessor allocates a bounded queue of capacity
5, but the track-processing loop never puts to or gets from it: for every
arrival sequence the queue stays empty and its operation count stays 0;
selected frames are processed synchronously inline instead, so no
most-recent-wins eviction ever occurs. -/
theorem c2_frame_queue_never_used (as : List Arrival) :
    (process_video_track as).frame_queue = [] ∧
    (process_video_track as).buffer_ops = 0 ∧
    frame_queue_maxsize = 5 := by
  obtain ⟨h1, h2⟩ := foldl_track_queue as initTrackState
  exact ⟨h1, h2, rfl⟩

/-- C1, counterexample: with four arrivals of which the second (the first
selected frame) fails during processing, the loop breaks: the run equals
the run of only the first two arrivals, no result is ever emitted, and in
particular the later frames 3 and 4 are not received or processed. -/
theorem c1_counterexample :
    (process_video_track [arr_ok, arr_infer_fail, arr_ok, arr_ok]).terminated = true ∧
    (process_video_track [arr_ok, arr_infer_fail, arr_ok, arr_ok]).results = [] ∧
    process_video_track [arr_ok, arr_infer_fail, arr_ok, arr_ok]
      = process_video_track [arr_ok, arr_infer_fail] := by
  decide

/-- C1, amended: a failure at any stage of an iteration of
process_video_track is caught, but it breaks the loop rather than dropping
only that frame: all later arrivals have no effect, and the failing frame
itself contributes no result.  The WebSocket session is unaffected. -/
theorem c1_failure_breaks_loop (pre : List Arrival) (a : Arrival) (post : List Arrival)
    (h : (process_video_track (pre ++ [a])).terminated = true) :
    process_video_track (pre ++ a :: post) = process_video_track (pre ++ [a]) ∧
    ((process_video_track pre).terminated = false →
      (process_video_track (pre ++ [a])).results = (process_video_track pre).results) := by
  constructor
  · have hsplit : pre ++ a :: post = (pre ++ [a]) ++ post := by simp
    rw [hsplit]
    unfold process_video_track at h ⊢
    rw [List.foldl_append]
    exact foldl_track_terminated post _ h
  · intro h0
    unfold process_video_track at h ⊢
    rw [List.foldl_append] at h ⊢
    exact track_step_fail_no_result _ a h0 h

theorem c1_failure_breaks_loop_witness :
    process_video_track ([arr_ok] ++ arr_infer_fail :: [arr_ok])
        = process_video_track ([arr_ok] ++ [arr_infer_fail]) ∧
    ((process_video_track [arr_ok]).terminated = false →
      (process_video_track ([arr_ok] ++ [arr_infer_fail])).results
        = (process_video_track [arr_ok]).results) :=
  c1_failure_breaks_loop [arr_ok] arr_infer_fail [arr_ok] (by decide)

/-- C6, counterexample: a selected frame whose remote client attached
capture time 1111 produces a detection_result whose capture_ts is 2222,
the server clock at selection time, not the client-supplied value. -/
theorem c6_counterexample :
    (process_video_track [arr_ok, c6_arrival]).results.map DetectionResult.capture_ts
      = [2222] ∧ (2222 : Int) ≠ 1111 := by
  decide

/-- C6, amended: the capture_ts carried in a detection_result is the
server clock sampled at frame selection in process_video_track, and the
client-attached frame timestamp is never read (the emitted state is
independent of it); process_frame itself passes the value through
unmodified, and recv_ts and inference_ts are later server samples. -/
theorem c6_capture_ts_is_server_clock (s : TrackState) (a : Arrival)
    (r : DetectionResult) (h : (track_step s a).results = s.results ++ [r]) :
    r.capture_ts = a.server_now ∧ r.recv_ts = a.server_recv_now ∧
    r.inference_ts = a.server_infer_now ∧
    (∀ t : Int, track_step s { a with client_capture_ts := t } = track_step s a) := by
  have hind : ∀ t : Int, track_step s { a with client_capture_ts := t } = track_step s a := by
    intro t; cases a; rfl
  have hr : process_frame a (toString (s.frame_count + 1)) a.server_now = r := by
    unfold track_step at h
    split_ifs at h <;>
      first
      | (exfalso; simpa using congrArg List.length h)
      | simpa using h
  subst hr
  exact ⟨rfl, rfl, rfl, hind⟩

theorem c6_capture_ts_is_server_clock_witness :
    (process_frame c6_arrival (toString 2) c6_arrival.server_now).capture_ts
        = c6_arrival.server_now ∧
    (process_frame c6_arrival (toString 2) c6_arrival.server_now).recv_ts
        = c6_arrival.server_recv_now ∧
    (process_frame c6_arrival (toString 2) c6_arrival.server_now).inference_ts
        = c6_arrival.server_infer_now ∧
    (∀ t : Int, track_step c6_state { c6_arrival with client_capture_ts := t }
        = track_step c6_state c6_arrival) :=
  c6_capture_ts_is_server_clock c6_state c6_arrival _ (by decide)

/-- C7, counterexample: after two offers on the same connection, the two
peer-connection handles created for that connection are simultaneously
active (created and not closed), refuting that at most one active handle
per session exists at any time. -/
theorem c7_counterexample :
    pc_active (handle_offer (handle_offer initServerState 7).2 7).2 0 ∧
    pc_active (handle_offer (handle_offer initServerState 7).2 7).2 1 ∧
    (0 : Nat) ≠ 1 := by
  decide

/-- C7, amended: a second offer on a connection creates a fresh
peer-connection handle and overwrites the registry entry without closing
the first handle, so both stay active; the registry maps the connection to
the new handle only, and disconnect cleanup closes only that registered
handle, leaving the first one unclosed (leaked). -/
theorem c7_second_offer_leaks_first (s : ServerState) (conn : Nat) (h : wf_server s) :
    (handle_offer s conn).1 ≠ (handle_offer (handle_offer s conn).2 conn).1 ∧
    pc_active (handle_offer (handle_offer s conn).2 conn).2 (handle_offer s conn).1 ∧
    pc_active (handle_offer (handle_offer s conn).2 conn).2
      (handle_offer (handle_offer s conn).2 conn).1 ∧
    dictGet (handle_offer (handle_offer s conn).2 conn).2.peer_connections conn
      = some (handle_offer (handle_offer s conn).2 conn).1 ∧
    (websocket_cleanup (handle_offer (handle_offer s conn).2 conn).2 conn).closed_pcs
      = s.closed_pcs ++ [(handle_offer (handle_offer s conn).2 conn).1] ∧
    (handle_offer s conn).1
      ∉ (websocket_cleanup (handle_offer (handle_offer s conn).2 conn).2 conn).closed_pcs := by
  have h1 : s.next_pc ∉ s.closed_pcs := fun hc => absurd (h _ hc) (by omega)
  have h2 : s.next_pc + 1 ∉ s.closed_pcs := fun hc => absurd (h _ hc) (by omega)
  refine ⟨by simp [handle_offer], ?_, ?_, ?_, ?_, ?_⟩
  · simp only [handle_offer, pc_active]
    exact ⟨by omega, h1⟩
  · simp only [handle_offer, pc_active]
    exact ⟨by omega, h2⟩
  · simp [handle_offer, dictGet, dictSet]
  · simp [handle_offer, websocket_cleanup, dictGet, dictSet]
  · simp [handle_offer, websocket_cleanup, dictGet, dictSet]
    exact fun hc => absurd (h _ hc) (by omega)

theorem c7_second_offer_leaks_first_witness :
    (handle_offer initServerState 7).1
        ≠ (handle_offer (handle_offer initServerState 7).2 7).1 ∧
    pc_active (handle_offer (handle_offer initServerState 7).2 7).2
      (handle_offer initServerState 7).1 ∧
    pc_active (handle_offer (handle_offer initServerState 7).2 7).2
      (handle_offer (handle_offer initServerState 7).2 7).1 ∧
    dictGet (handle_offer (handle_offer initServerState 7).2 7).2.peer_connections 7
      = some (handle_offer (handle_offer initServerState 7).2 7).1 ∧
    (websocket_cleanup (handle_offer (handle_offer initServerState 7).2 7).2 7).closed_pcs
      = initServerState.closed_pcs
          ++ [(handle_offer (handle_offer initServerState 7).2 7).1] ∧
    (handle_offer initServerState 7).1
      ∉ (websocket_cleanup (handle_offer (handle_offer initServerState 7).2 7).2 7).closed_pcs :=
  c7_second_offer_leaks_first initServerState 7 (by decide)

theorem frame_ids_filter_length :
    ∀ (n k : Nat),
      ((frame_ids_from k n).filter (fun m => m % 2 = 0)).length = (n + k % 2) / 2 := by
  intro n
  induction n with
  | zero => intro k; simp [frame_ids_from]
  | succ n ih =>
    intro k
    rw [frame_ids_from, List.filter_cons]
    by_cases h : (k + 1) % 2 = 0
    · simp only [h]
      simp [ih (k + 1)]
      omega
    · simp only [h]
      simp [ih (k + 1)]
      omega

theorem run_ok_general (as : List Arrival) :
    ∀ s : TrackState, (∀ a ∈ as, arrival_ok a = true) → s.terminated = false →
      ((as.foldl track_step s).results.map DetectionResult.frame_id
          = s.results.map DetectionResult.frame_id
            ++ ((frame_ids_from s.frame_count as.length).filter
                  (fun n => n % 2 = 0)).map toString) ∧
      (as.foldl track_step s).terminated = false := by
  induction as with
  | nil => intro s _ hterm; simp [frame_ids_from, hterm]
  | cons a as ih =>
    intro s hok hterm
    have ha := hok a (by simp)
    simp only [arrival_ok, Bool.and_eq_true] at ha
    obtain ⟨⟨h1, h2⟩, h3⟩ := ha
    rw [List.foldl_cons]
    by_cases hm : (s.frame_count + 1) % 2 = 0
    · have hstep : track_step s a =
          { s with frame_count := s.frame_count + 1,
                   results := s.results ++
                     [process_frame a (toString (s.frame_count + 1)) a.server_now] } := by
        unfold track_step
        simp [hterm, h1, h2, h3, hm]
      rw [hstep]
      obtain ⟨hmap, hterm2⟩ :=
        ih { s with frame_count := s.frame_count + 1,
                    results := s.results ++
                      [process_frame a (toString (s.frame_count + 1)) a.server_now] }
          (fun x hx => hok x (by simp [hx])) hterm
      refine ⟨?_, hterm2⟩
      rw [hmap]
      simp [frame_ids_from, List.filter_cons, hm, process_frame]
    · have hstep : track_step s a = { s with frame_count := s.frame_count + 1 } := by
        unfold track_step
        simp [hterm, h1, h2, h3, hm]
      rw [hstep]
      obtain ⟨hmap, hterm2⟩ :=
        ih { s with frame_count := s.frame_count + 1 }
          (fun x hx => hok x (by simp [hx])) hterm
      refine ⟨?_, hterm2⟩
      rw [hmap]
      simp [frame_ids_from, List.filter_cons, hm]

/-- C9: when no iteration fails, the frames selected for processing out of
the first M arrivals on a track are exactly those with even frame count,
floor(M/2) of them (interval N = 2), and the non-selected frames are
discarded at arrival without entering the frame_queue (which is never
touched) and without being processed. -/
theorem c9_decimation (as : List Arrival) (h : ∀ a ∈ as, arrival_ok a = true) :
    (process_video_track as).results.map DetectionResult.frame_id
        = ((frame_ids_from 0 as.length).filter (fun n => n % 2 = 0)).map toString ∧
    (process_video_track as).results.length = as.length / 2 ∧
    (process_video_track as).frame_queue = [] ∧
    (process_video_track as).buffer_ops = 0 := by
  unfold process_video_track
  obtain ⟨hmap, _⟩ := run_ok_general as initTrackState h rfl
  obtain ⟨hq, hb⟩ := foldl_track_queue as initTrackState
  refine ⟨hmap, ?_, hq, hb⟩
  have hlen : (List.foldl track_step initTrackState as).results.length
      = ((frame_ids_from 0 as.length).filter (fun n => n % 2 = 0)).length := by
    have := congrArg List.length hmap
    simpa [initTrackState] using this
  rw [hlen, frame_ids_filter_length as.length 0]
  omega

theorem c9_decimation_witness :
    (process_video_track [arr_ok, arr_ok, arr_ok]).results.map DetectionResult.frame_id
        = ((frame_ids_from 0 [arr_ok, arr_ok, arr_ok].length).filter
            (fun n => n % 2 = 0)).map toString ∧
    (process_video_track [arr_ok, arr_ok, arr_ok]).results.length
        = [arr_ok, arr_ok, arr_ok].length / 2 ∧
    (process_video_track [arr_ok, arr_ok, arr_ok]).frame_queue = [] ∧
    (process_video_track [arr_ok, arr_ok, arr_ok]).buffer_ops = 0 :=
  c9_decimation [arr_ok, arr_ok, arr_ok] (by decide)

theorem densePred_ok_some (input_size thr : ℚ) (p : List Val) (d : Detection)
    (h : densePred input_size thr p = .ok (some d)) :
    (0 ≤ thr → thr * thr < d.score) ∧
    0 ≤ d.xmin ∧ 0 ≤ d.ymin ∧ d.xmax ≤ 1 ∧ d.ymax ≤ 1 := by
  unfold densePred at h
  repeat' split at h
  all_goals first
    | exact Except.noConfusion h
    | exact Option.noConfusion (Except.ok.inj h)
    | (injection h with h1
       injection h1 with h2
       subst h2
       refine ⟨fun h0 => by nlinarith, ?_, ?_, ?_, ?_⟩ <;>
         first
           | exact le_max_left 0 _
           | exact min_le_left 1 _)

theorem flatChunk_ok_some (thr : ℚ) (c : List Val) (d : Detection)
    (h : flatChunk thr c = .ok (some d)) :
    thr < d.score ∧ 0 ≤ d.xmin ∧ 0 ≤ d.ymin ∧ d.xmax ≤ 1 ∧ d.ymax ≤ 1 := by
  unfold flatChunk at h
  repeat' split at h
  all_goals first
    | exact Except.noConfusion h
    | exact Option.noConfusion (Except.ok.inj h)
    | (injection h with h1
       injection h1 with h2
       subst h2
       refine ⟨by linarith, ?_, ?_, ?_, ?_⟩ <;>
         first
           | exact le_max_left 0 _
           | exact min_le_left 1 _)

theorem scanDense_mem (input_size thr : ℚ) :
    ∀ (ps : List (List Val)) (d : Detection), d ∈ scanDense input_size thr ps →
      ∃ p, densePred input_size thr p = .ok (some d) := by
  intro ps
  induction ps with
  | nil => intro d hd; simp [scanDense] at hd
  | cons p ps ih =>
    intro d hd
    unfold scanDense at hd
    split at hd
    · simp at hd
    · exact ih d hd
    · next d0 heq =>
        rcases List.mem_cons.mp hd with h | h
        · exact ⟨p, by rw [heq, h]⟩
        · exact ih d h

theorem scanFlat_mem (thr : ℚ) :
    ∀ (cs : List (List Val)) (d : Detection), d ∈ scanFlatChunks thr cs →
      ∃ c, flatChunk thr c = .ok (some d) := by
  intro cs
  induction cs with
  | nil => intro d hd; simp [scanFlatChunks] at hd
  | cons c cs ih =>
    intro d hd
    unfold scanFlatChunks at hd
    split at hd
    · simp at hd
    · exact ih d hd
    · next d0 heq =>
        rcases List.mem_cons.mp hd with h | h
        · exact ⟨c, by rw [heq, h]⟩
        · exact ih d h

theorem scanSSD_score (thr : ℚ) :
    ∀ (rows : List (List Val)) (d : Detection), d ∈ scanSSD thr rows →
      thr < d.score := by
  intro rows
  induction rows with
  | nil => intro d hd; simp [scanSSD] at hd
  | cons row rows ih =>
    intro d hd
    unfold scanSSD at hd
    split at hd
    · exact ih d hd
    · split at hd
      · exact ih d hd
      · split at hd
        · simp at hd
        · rcases List.mem_cons.mp hd with h | h
          · subst h; simpa using by linarith
          · exact ih d h

/-- C3, counterexample: a dense-grid tensor with objectness 0.6 and class
score 0.6 at threshold 0.5 yields a returned Detection whose score is
0.36, which does not exceed the threshold 0.5, refuting that every
returned Detection has score greater than the threshold. -/
theorem c3_counterexample :
    postprocess 320 [c3_tensor] (1/2)
      = [{ label := "person", score := 9/25, xmin := 1/800, ymin := 1/800,
           xmax := 3/1600, ymax := 3/1600 }] ∧
    ¬ ((1:ℚ)/2 < 9/25) := by
  constructor
  · norm_num [postprocess, c3_tensor, denseRows, chunkList, chunksAux, scanDense,
              densePred, pyFloat, npArgmax, mapFloats, argmaxAux, labelFor, pyIndex,
              class_names]
  · norm_num

/-- C3, amended: for thresholds t with 0 <= t <= 1, every Detection
returned by postprocess in any branch has score greater than t * t; in
the dense-grid branch both objectness and classScore exceed t but only
their product, which can be as low as just above t squared, is returned. -/
theorem c3_score_gt_threshold_squared (input_size thr : ℚ) (outs : List Tensor)
    (h0 : 0 ≤ thr) (h1 : thr ≤ 1) :
    ∀ d ∈ postprocess input_size outs thr, thr * thr < d.score := by
  intro d hd
  unfold postprocess at hd
  split at hd
  · simp at hd
  · split_ifs at hd
    · simp at hd
    · obtain ⟨p, hp⟩ := scanDense_mem input_size thr _ d hd
      exact (densePred_ok_some input_size thr p d hp).1 h0
    · simp at hd
    · have hs := scanSSD_score thr _ d hd
      nlinarith
    · obtain ⟨c, hc⟩ := scanFlat_mem thr _ d hd
      have hs := (flatChunk_ok_some thr c d hc).1
      nlinarith
    · simp at hd

theorem c3_score_gt_threshold_squared_witness :
    (1:ℚ)/2 * (1/2)
      < ({ label := "person", score := 81/100, xmin := 1/800, ymin := 1/800,
           xmax := 3/1600, ymax := 3/1600 } : Detection).score :=
  c3_score_gt_threshold_squared 320 (1/2) [c5_tensor] (by norm_num) (by norm_num) _
    (by norm_num [postprocess, c5_tensor, c5_row, denseRows, chunkList, chunksAux,
                  scanDense, densePred, pyFloat, npArgmax, mapFloats, argmaxAux,
                  labelFor, pyIndex, class_names])

/-- C4, counterexample: the region-list branch returns a Detection with
box (2, 2, 3, 3), unclamped and outside the unit square, and the
dense-grid branch returns a zero-size box with xmin = xmax = 1/2 instead
of dropping it, refuting both the clamping of every branch and the strict
inequalities xmin < xmax, ymin < ymax. -/
theorem c4_counterexample :
    postprocess 320 [c4_ssd_tensor] (1/2)
      = [{ label := "person", score := 9/10, xmin := 2, ymin := 2,
           xmax := 3, ymax := 3 }] ∧
    ¬ ((3:ℚ) ≤ 1) ∧
    postprocess 320 [c4_dense_tensor] (1/2)
      = [{ label := "person", score := 81/100, xmin := 1/2, ymin := 1/2,
           xmax := 1/2, ymax := 1/2 }] ∧
    ¬ ((1:ℚ)/2 < 1/2) := by
  refine ⟨?_, by norm_num, ?_, by norm_num⟩
  · norm_num [postprocess, c4_ssd_tensor, ssdRows, chunkList, chunksAux, scanSSD,
              ssdParse, rowGet, pyInt, pyFloat, truncQ, labelFor, pyIndex, class_names]
  · norm_num [postprocess, c4_dense_tensor, c4_dense_row, denseRows, chunkList,
              chunksAux, scanDense, densePred, pyFloat, npArgmax, mapFloats,
              argmaxAux, labelFor, pyIndex, class_names]

/-- C4, amended: in the dense-grid and flat-fallback branches every
returned Detection satisfies the one-sided clamping bounds 0 <= xmin,
0 <= ymin, xmax <= 1 and ymax <= 1; strict ordering of the corners is not
enforced and degenerate boxes are returned rather than dropped, and the
region-list branch applies no clamping at all. -/
theorem c4_dense_flat_one_sided_clamp :
    (∀ (input_size thr : ℚ) (ps : List (List Val)) (d : Detection),
        d ∈ scanDense input_size thr ps →
        0 ≤ d.xmin ∧ 0 ≤ d.ymin ∧ d.xmax ≤ 1 ∧ d.ymax ≤ 1) ∧
    (∀ (thr : ℚ) (cs : List (List Val)) (d : Detection),
        d ∈ scanFlatChunks thr cs →
        0 ≤ d.xmin ∧ 0 ≤ d.ymin ∧ d.xmax ≤ 1 ∧ d.ymax ≤ 1) := by
  constructor
  · intro input_size thr ps d hd
    obtain ⟨p, hp⟩ := scanDense_mem input_size thr ps d hd
    exact (densePred_ok_some input_size thr p d hp).2
  · intro thr cs d hd
    obtain ⟨c, hc⟩ := scanFlat_mem thr cs d hd
    exact (flatChunk_ok_some thr c d hc).2

theorem c4_dense_flat_one_sided_clamp_witness :
    (0 ≤ ({ label := "person", score := 81/100, xmin := 1/2, ymin := 1/2,
            xmax := 1/2, ymax := 1/2 } : Detection).xmin ∧
     0 ≤ ({ label := "person", score := 81/100, xmin := 1/2, ymin := 1/2,
            xmax := 1/2, ymax := 1/2 } : Detection).ymin ∧
     ({ label := "person", score := 81/100, xmin := 1/2, ymin := 1/2,
        xmax := 1/2, ymax := 1/2 } : Detection).xmax ≤ 1 ∧
     ({ label := "person", score := 81/100, xmin := 1/2, ymin := 1/2,
        xmax := 1/2, ymax := 1/2 } : Detection).ymax ≤ 1) ∧
    (0 ≤ ({ label := "person", score := 9/10, xmin := 2/5, ymin := 2/5,
            xmax := 3/5, ymax := 3/5 } : Detection).xmin ∧
     0 ≤ ({ label := "person", score := 9/10, xmin := 2/5, ymin := 2/5,
            xmax := 3/5, ymax := 3/5 } : Detection).ymin ∧
     ({ label := "person", score := 9/10, xmin := 2/5, ymin := 2/5,
        xmax := 3/5, ymax := 3/5 } : Detection).xmax ≤ 1 ∧
     ({ label := "person", score := 9/10, xmin := 2/5, ymin := 2/5,
        xmax := 3/5, ymax := 3/5 } : Detection).ymax ≤ 1) :=
  ⟨c4_dense_flat_one_sided_clamp.1 320 (1/2) [c4_dense_row] _
      (by norm_num [scanDense, densePred, c4_dense_row, pyFloat, npArgmax, mapFloats,
                    argmaxAux, labelFor, pyIndex, class_names]),
   c4_dense_flat_one_sided_clamp.2 (1/2) [flat_good_chunk] _
      (by norm_num [scanFlatChunks, flatChunk, flat_good_chunk, rowGet, pyInt, pyFloat,
                    truncQ, labelFor, pyIndex, class_names])⟩

/-- C5, counterexample: the scenario tensor of shape (1,3,6) with rows
(0.5, 0.5, 0.2, 0.2, 0.9, 0.9) at threshold 0.5 returns three identical
Detections, not exactly one, and their xmin is 1/800 (the center/size
fields are divided by the input size 320), not approximately 0.4. -/
theorem c5_counterexample :
    postprocess 320 [c5_tensor] (1/2)
      = [{ label := "person", score := 81/100, xmin := 1/800, ymin := 1/800,
           xmax := 3/1600, ymax := 3/1600 },
         { label := "person", score := 81/100, xmin := 1/800, ymin := 1/800,
           xmax := 3/1600, ymax := 3/1600 },
         { label := "person", score := 81/100, xmin := 1/800, ymin := 1/800,
           xmax := 3/1600, ymax := 3/1600 }] ∧
    (postprocess 320 [c5_tensor] (1/2)).length ≠ 1 ∧
    ((1:ℚ)/800 ≠ 2/5) := by
  have h : postprocess 320 [c5_tensor] (1/2)
      = [{ label := "person", score := 81/100, xmin := 1/800, ymin := 1/800,
           xmax := 3/1600, ymax := 3/1600 },
         { label := "person", score := 81/100, xmin := 1/800, ymin := 1/800,
           xmax := 3/1600, ymax := 3/1600 },
         { label := "person", score := 81/100, xmin := 1/800, ymin := 1/800,
           xmax := 3/1600, ymax := 3/1600 }] := by
    norm_num [postprocess, c5_tensor, c5_row, denseRows, chunkList, chunksAux,
              scanDense, densePred, pyFloat, npArgmax, mapFloats, argmaxAux,
              labelFor, pyIndex, class_names]
  refine ⟨h, ?_, by norm_num⟩
  rw [h]
  norm_num

/-- C5, amended: the scenario tensor returns exactly three identical
Detections, one per row, each with the label at vocabulary index 0, score
exactly 0.81, and box (0.4/320, 0.4/320, 0.6/320, 0.6/320): the dense
branch divides the center/size fields by the model input size. -/
theorem c5_dense_scenario :
    postprocess 320 [c5_tensor] (1/2)
      = List.replicate 3
          { label := class_names.getD 0 ("unknown"), score := 81/100,
            xmin := (2/5) / 320, ymin := (2/5) / 320,
            xmax := (3/5) / 320, ymax := (3/5) / 320 } := by
  norm_num [postprocess, c5_tensor, c5_row, denseRows, chunkList, chunksAux,
            scanDense, densePred, pyFloat, npArgmax, mapFloats, argmaxAux,
            labelFor, pyIndex, class_names, List.replicate]

/-- C8, counterexample: a region-list row with class id -1 at threshold
0.5 is returned with label toothbrush, drawn from the end of the
vocabulary by Python negative indexing, not with the literal unknown
label. -/
theorem c8_counterexample :
    postprocess 320 [c8_tensor] (1/2)
      = [{ label := "toothbrush", score := 9/10, xmin := 0, ymin := 0,
           xmax := 1/2, ymax := 1/2 }] ∧
    "toothbrush" ≠ "unknown" := by
  constructor
  · norm_num [postprocess, c8_tensor, ssdRows, chunkList, chunksAux, scanSSD,
              ssdParse, rowGet, pyInt, pyFloat, truncQ, labelFor, pyIndex, class_names]
    decide
  · decide

/-- C8, amended: the label expression maps indices at or above 80 to the
literal unknown label and indices 0..79 to the vocabulary entry; negative
indices from -80 to -1 select the entry at 80 + i by Python negative
indexing, and indices below -80 raise IndexError, which only the outer
handler of postprocess catches. -/
theorem c8_label_mapping (i : Int) :
    ((class_names.length : Int) ≤ i → labelFor i = .ok ("unknown")) ∧
    (0 ≤ i → i < (class_names.length : Int) →
        labelFor i = .ok (class_names.getD i.toNat (""))) ∧
    (-(class_names.length : Int) ≤ i → i < 0 →
        labelFor i = .ok (class_names.getD ((class_names.length : Int) + i).toNat (""))) ∧
    (i < -(class_names.length : Int) → labelFor i = .error ()) := by
  refine ⟨?_, ?_, ?_, ?_⟩
  · intro h
    unfold labelFor
    rw [if_neg (by omega)]
  · intro h1 h2
    unfold labelFor pyIndex
    rw [if_pos h2, if_pos ⟨h1, h2⟩]
  · intro h1 h2
    unfold labelFor pyIndex
    rw [if_pos (by omega), if_neg (by omega), if_pos ⟨h1, h2⟩]
  · intro h
    unfold labelFor pyIndex
    rw [if_pos (by omega), if_neg (by omega), if_neg (by omega)]

theorem c8_label_mapping_witness :
    labelFor 100 = .ok ("unknown") ∧
    labelFor (-1) = .ok (class_names.getD ((class_names.length : Int) + -1).toNat ("")) ∧
    labelFor (-100) = .error () :=
  ⟨(c8_label_mapping 100).1 (by decide),
   (c8_label_mapping (-1)).2.2.1 (by decide) (by decide),
   (c8_label_mapping (-100)).2.2.2 (by decide)⟩

/-- C10: the exception-containment structure of postprocess.  In the
dense-grid and flat-fallback loops a candidate on which processing raises
ends the scan, keeping the detections accumulated before it and omitting
all later candidates; in the region-list loop a row whose parse raises is
skipped individually and all later rows are still processed.  The outer
handler turns the abort into the accumulated (partial) list, so
postprocess always returns a list and never propagates. -/
theorem c10_exception_containment :
    (∀ (input_size thr : ℚ) (ps1 : List (List Val)) (bad : List Val)
        (ps2 : List (List Val)),
        densePred input_size thr bad = .error () →
        scanDense input_size thr (ps1 ++ bad :: ps2)
          = scanDense input_size thr (ps1 ++ [bad])) ∧
    (∀ (thr : ℚ) (cs1 : List (List Val)) (bad : List Val) (cs2 : List (List Val)),
        flatChunk thr bad = .error () →
        scanFlatChunks thr (cs1 ++ bad :: cs2) = scanFlatChunks thr (cs1 ++ [bad])) ∧
    (∀ (thr : ℚ) (rs1 : List (List Val)) (bad : List Val) (rs2 : List (List Val)),
        ssdParse bad = .error () →
        scanSSD thr (rs1 ++ bad :: rs2) = scanSSD thr (rs1 ++ rs2)) := by
  refine ⟨?_, ?_, ?_⟩
  · intro input_size thr ps1 bad ps2 hbad
    induction ps1 with
    | nil => simp [scanDense, hbad]
    | cons p ps ih =>
      rw [List.cons_append, List.cons_append]
      cases hp : densePred input_size thr p <;> simp [scanDense, hp, ih]
  · intro thr cs1 bad cs2 hbad
    induction cs1 with
    | nil => simp [scanFlatChunks, hbad]
    | cons c cs ih =>
      rw [List.cons_append, List.cons_append]
      cases hc : flatChunk thr c <;> simp [scanFlatChunks, hc, ih]
  · intro thr rs1 bad rs2 hbad
    induction rs1 with
    | nil => simp [scanSSD, hbad]
    | cons r rs ih =>
      rw [List.cons_append, List.cons_append]
      cases hr : ssdParse r with
      | error e => simp [scanSSD, hr, ih]
      | ok tup =>
        obtain ⟨cid, sc, x0, y0, x1, y1⟩ := tup
        by_cases hsc : sc ≤ thr
        · simp [scanSSD, hr, hsc, ih]
        · cases hl : labelFor cid with
          | error e => simp [scanSSD, hr, hsc, hl]
          | ok lab => simp [scanSSD, hr, hsc, hl, ih]

theorem c10_exception_containment_witness :
    scanDense 320 (1/2) ([c5_row] ++ dense_bad_pred :: [c5_row])
      = scanDense 320 (1/2) ([c5_row] ++ [dense_bad_pred]) ∧
    scanFlatChunks (1/2) ([flat_good_chunk] ++ flat_bad_chunk :: [flat_good_chunk])
      = scanFlatChunks (1/2) ([flat_good_chunk] ++ [flat_bad_chunk]) ∧
    scanSSD (1/2) ([ssd_good_row] ++ ssd_bad_row :: [ssd_good_row])
      = scanSSD (1/2) ([ssd_good_row] ++ [ssd_good_row]) :=
  ⟨c10_exception_containment.1 320 (1/2) [c5_row] dense_bad_pred [c5_row]
      (by norm_num [densePred, dense_bad_pred, pyFloat]),
   c10_exception_containment.2.1 (1/2) [flat_good_chunk] flat_bad_chunk [flat_good_chunk]
      (by norm_num [flatChunk, flat_bad_chunk, rowGet, pyFloat]),
   c10_exception_containment.2.2 (1/2) [ssd_good_row] ssd_bad_row [ssd_good_row]
      (by norm_num [ssdParse, ssd_bad_row, rowGet, pyInt, pyFloat])⟩

end YoloServer
